import Mathlib

/-! Verification development for the survival-signals webhook service.

The definitions below are a shallow embedding of the Python sources
`app.py` and `notify_signals.py`.  External HTTP calls (Telegram Bot API,
Stripe object retrieval) are modelled by an environment record that fixes
the outcome of each call; the webhook handler is a pure function of that
environment, the current deduplication ledger, and the (already
signature-checked or rejected) inbound event.  Every outbound call the
handler attempts is recorded in an ordered trace, so theorems can speak
about which side effects happen and in which order.
-/

namespace SurvivalSignals

/-- Outcome of one HTTP call to the Telegram Bot API, as distinguished by
the Python code: `ok` is an HTTP 200 whose JSON body has `ok = true`;
`httpErr` is a non-200 status (the code calls `raise_for_status`);
`apiErr` is an HTTP 200 whose body has `ok = false` (the code raises an
`Exception`); `netExc` is `requests.post` itself raising. -/
inductive TgOutcome
  | ok
  | httpErr
  | apiErr
  | netExc
deriving DecidableEq, Repr

/-- Text of a direct message sent by `app.py`, one constructor per message
template in the source (the exact unicode text is irrelevant to every
claim, so templates are kept symbolic; invite-carrying messages keep the
link). -/
inductive MsgText
  | inviteLink (link : String)
  | renewalInvite (link : String)
  | paymentFailed
  | removedPaymentFailure
  | subscriptionEnded
  | removedResubscribe
  | subscriptionDeleted
  | removedDeleted
deriving DecidableEq, Repr

/-- Text of an admin-channel `send_signal` call made from `app.py`, one
constructor per call site. -/
inductive SignalText
  | eventReceived (etype : String)
  | renewalInviteError
  | removedPaymentFailure (tg : String)
  | removedSubscription (tg : String) (status : String)
  | removedDeleted (tg : String)
  | removeError (tg : String)
deriving DecidableEq, Repr

/-- One outbound call attempted by the webhook handler, in program order.
Telegram calls: `createInvite` (createChatInviteLink), `dm` (sendMessage),
`ban` (banChatMember), `unban` (unbanChatMember), `signal` (the admin
notification sink).  Stripe calls: `customerRetrieve`,
`subscriptionRetrieve`, `invoiceListReq` (Invoice.list), `invoiceModify`
(Invoice.modify with the telegram id written into metadata). -/
inductive Call
  | createInvite
  | dm (user : String) (text : MsgText)
  | ban (user : String)
  | unban (user : String)
  | signal (text : SignalText)
  | customerRetrieve (id : String)
  | subscriptionRetrieve (id : String)
  | invoiceListReq (subId : String)
  | invoiceModify (invId : String) (tg : String)
deriving DecidableEq, Repr

/-- Calls to the Messaging Gateway in the sense of the specification:
invite creation, direct messages, and revocation (ban/unban).  Admin-sink
signals and Stripe object calls are not Gateway calls. -/
def isGatewayCall : Call → Bool
  | .createInvite => true
  | .dm _ _ => true
  | .ban _ => true
  | .unban _ => true
  | _ => false

/-- The fields of the event's primary object that `stripe_webhook` reads.
`metadataTg` is `obj['metadata'].get('telegram_user_id')`; `customer` is
`inv.get('customer')`; `parentSubscription` is
`inv.get('parent', {}).get('subscription_details', {}).get('subscription')`;
`subscription` is the checkout session's `sess.get('subscription')`;
`status` is `sub.get('status')`.  A `none` field models an absent key
(or JSON null). -/
structure EventObject where
  metadataTg : Option String
  customer : Option String
  parentSubscription : Option String
  subscription : Option String
  status : Option String
deriving DecidableEq, Repr

/-- A verified Stripe event: its id, its type string, and its primary
data object. -/
structure Event where
  id : String
  type : String
  obj : EventObject
deriving DecidableEq, Repr

/-- Python truthiness of an optional string value: `None` and the empty
string are falsy, every other string is truthy.  Returns the value itself
when truthy, mirroring expressions of the form `if tg:` in the source. -/
def truthyVal : Option String → Option String
  | none => none
  | some s => if s = "" then none else some s

/-- Environment fixing the outcome of each Telegram Bot API call made
during one request.  `dmOutcome n` is the outcome of the n-th `send_dm`
call of the request (a branch makes at most two); `unbanRaises` says
whether the `unbanChatMember` post raises a network exception (its HTTP
status is never inspected by the source). -/
structure TgEnv where
  inviteOutcome : TgOutcome
  inviteLink : String
  dmOutcome : Nat → TgOutcome
  banOutcome : TgOutcome
  unbanRaises : Bool

/-- Environment fixing the outcome of each Stripe API call.
`customerTg c` models `stripe.Customer.retrieve(c)`: outer `none` means
the retrieval raises, `some m` means it succeeds and
`cust.metadata.get('telegram_user_id')` is `m`.  `subscriptionTg` is the
same for `stripe.Subscription.retrieve`.  `invoiceList s` models
`stripe.Invoice.list(subscription=s, limit=1)`: `none` means it raises,
`some l` gives the ids of the returned invoices.  `invoiceModifyRaises i`
says whether `stripe.Invoice.modify(i, ...)` raises. -/
structure StripeEnv where
  customerTg : String → Option (Option String)
  subscriptionTg : String → Option (Option String)
  invoiceList : String → Option (List String)
  invoiceModifyRaises : String → Bool

/-- Combined external-call environment of one webhook request. -/
structure Env where
  tg : TgEnv
  stripe : StripeEnv

/-- Whether a Telegram call outcome is a plain success (HTTP 200 and
body `ok = true`). -/
def tgCallOk : TgOutcome → Bool
  | .ok => true
  | _ => false

/-- Model of `create_one_time_invite` from `app.py`: posts
createChatInviteLink; returns the invite link on success and `none` when
the call raises (non-200 status via `raise_for_status`, embedded
`ok = false` via `raise`, or a network exception).  The attempted call is
recorded in the trace. -/
def create_one_time_invite (env : TgEnv) : Option String × List Call :=
  if tgCallOk env.inviteOutcome then (some env.inviteLink, [Call.createInvite])
  else (none, [Call.createInvite])

/-- Model of `send_dm` from `app.py`: posts sendMessage to a user;
returns `true` on success and `false` when the call raises (same three
failure modes as invite creation).  `n` selects the outcome of the n-th
DM of the request. -/
def send_dm (env : TgEnv) (n : Nat) (user : String) (text : MsgText) : Bool × List Call :=
  (tgCallOk (env.dmOutcome n), [Call.dm user text])

/-- Model of `remove_from_telegram_group` from `app.py`: posts
banChatMember; on a non-200 status, an embedded `ok = false`, or a
network exception it returns `false`.  On success it immediately posts
unbanChatMember (whose HTTP result is not inspected) and returns `true`,
except that a network exception from the unban post is caught by the
surrounding handler and also yields `false`.  The function is total and
returns a `Bool`: it never propagates an exception. -/
def remove_from_telegram_group (env : TgEnv) (uid : String) : Bool × List Call :=
  if tgCallOk env.banOutcome then
    (!env.unbanRaises, [Call.ban uid, Call.unban uid])
  else
    (false, [Call.ban uid])

/-- Model of `already_processed` from `app.py`, run sequentially: checks
membership of the event id in the processed set, and when absent inserts
it.  Returns the "already seen" answer together with the updated ledger. -/
def already_processed (processed : List String) (event_id : String) : Bool × List String :=
  if processed.contains event_id then (true, processed)
  else (false, event_id :: processed)

/-- Identity resolution of the `invoice.paid` branch of `stripe_webhook`
(app.py lines 454-477): take `telegram_user_id` from the invoice's own
metadata; if that is falsy and the invoice references a customer,
retrieve the customer and take the id from its metadata (a retrieval
exception is caught and leaves the value unchanged); if the value is
still falsy and the invoice's parent references a subscription, retrieve
the subscription and take the id from its metadata (again an exception is
caught).  Returns the final value and the trace of retrieval calls. -/
def resolveInvoiceTg (env : Env) (obj : EventObject) : Option String × List Call :=
  let tg0 := obj.metadataTg
  let s2 :=
    match truthyVal tg0, truthyVal obj.customer with
    | none, some c =>
      match env.stripe.customerTg c with
      | none => (tg0, [Call.customerRetrieve c])
      | some m => (m, [Call.customerRetrieve c])
    | _, _ => (tg0, ([] : List Call))
  let s3 :=
    match truthyVal s2.1, truthyVal obj.parentSubscription with
    | none, some sid =>
      match env.stripe.subscriptionTg sid with
      | none => (s2.1, [Call.subscriptionRetrieve sid])
      | some m => (m, [Call.subscriptionRetrieve sid])
    | _, _ => (s2.1, ([] : List Call))
  (s3.1, s2.2 ++ s3.2)

/-- Result of dispatching one classified event: whether an exception
escaped the branch uncaught (Flask then answers 500), and the trace of
outbound calls attempted. -/
structure DispatchOut where
  raised : Bool
  calls : List Call
deriving DecidableEq, Repr

/-- The `checkout.session.completed` / `checkout.session.async_payment_succeeded`
branch (app.py lines 430-448).  All work is inside one try/except, so the
branch never lets an exception escape: invite creation, the DM, the
invoice list and the invoice metadata patch each abort the rest of the
block when they fail, but the failure is absorbed. -/
def dispatchCheckout (env : Env) (obj : EventObject) : DispatchOut :=
  match truthyVal obj.metadataTg with
  | none => ⟨false, []⟩
  | some t =>
    let inv := create_one_time_invite env.tg
    match inv.1 with
    | none => ⟨false, inv.2⟩
    | some link =>
      let dm1 := send_dm env.tg 0 t (MsgText.inviteLink link)
      if dm1.1 then
        match truthyVal obj.subscription with
        | none => ⟨false, inv.2 ++ dm1.2⟩
        | some subId =>
          match env.stripe.invoiceList subId with
          | none => ⟨false, inv.2 ++ dm1.2 ++ [Call.invoiceListReq subId]⟩
          | some [] => ⟨false, inv.2 ++ dm1.2 ++ [Call.invoiceListReq subId]⟩
          | some (invId :: _) =>
            if env.stripe.invoiceModifyRaises invId then
              ⟨false, inv.2 ++ dm1.2 ++ [Call.invoiceListReq subId]⟩
            else
              ⟨false, inv.2 ++ dm1.2 ++ [Call.invoiceListReq subId, Call.invoiceModify invId t]⟩
      else ⟨false, inv.2 ++ dm1.2⟩

/-- The `invoice.paid` branch (app.py lines 451-484): resolve the
identity, then inside a try/except create an invite and DM the renewal
link; a failure is absorbed and mirrored to the admin sink. -/
def dispatchInvoicePaid (env : Env) (obj : EventObject) : DispatchOut :=
  let res := resolveInvoiceTg env obj
  match truthyVal res.1 with
  | none => ⟨false, res.2⟩
  | some t =>
    let inv := create_one_time_invite env.tg
    match inv.1 with
    | none => ⟨false, res.2 ++ inv.2 ++ [Call.signal SignalText.renewalInviteError]⟩
    | some link =>
      let dm1 := send_dm env.tg 0 t (MsgText.renewalInvite link)
      if dm1.1 then ⟨false, res.2 ++ inv.2 ++ dm1.2⟩
      else ⟨false, res.2 ++ inv.2 ++ dm1.2 ++ [Call.signal SignalText.renewalInviteError]⟩

/-- The `invoice.payment_failed` branch (app.py lines 487-502).  The
initial DM at line 492 is OUTSIDE any try/except: when it raises, the
exception escapes the handler.  The removal block that follows is inside
a try/except; a failure of the post-removal DM is absorbed and mirrored
to the admin sink. -/
def dispatchPaymentFailed (env : Env) (obj : EventObject) : DispatchOut :=
  match truthyVal obj.metadataTg with
  | none => ⟨false, []⟩
  | some t =>
    let dm1 := send_dm env.tg 0 t MsgText.paymentFailed
    if dm1.1 then
      let rm := remove_from_telegram_group env.tg t
      if rm.1 then
        let dm2 := send_dm env.tg 1 t MsgText.removedPaymentFailure
        if dm2.1 then
          ⟨false, dm1.2 ++ rm.2 ++ dm2.2 ++ [Call.signal (SignalText.removedPaymentFailure t)]⟩
        else
          ⟨false, dm1.2 ++ rm.2 ++ dm2.2 ++ [Call.signal (SignalText.removeError t)]⟩
      else ⟨false, dm1.2 ++ rm.2⟩
    else ⟨true, dm1.2⟩

/-- Python membership test `status in ('canceled', 'unpaid')` of the
`customer.subscription.updated` branch. -/
def statusEndsAccess : Option String → Bool
  | some s => s = "canceled" || s = "unpaid"
  | none => false

/-- The `customer.subscription.updated` branch (app.py lines 505-524):
acts only when the metadata id is truthy and the status is canceled or
unpaid.  The initial DM at line 514 is outside any try/except and an
exception from it escapes; the removal block is protected as in the
payment-failed branch. -/
def dispatchSubUpdated (env : Env) (obj : EventObject) : DispatchOut :=
  match truthyVal obj.metadataTg with
  | none => ⟨false, []⟩
  | some t =>
    if statusEndsAccess obj.status then
      let dm1 := send_dm env.tg 0 t MsgText.subscriptionEnded
      if dm1.1 then
        let rm := remove_from_telegram_group env.tg t
        if rm.1 then
          let dm2 := send_dm env.tg 1 t MsgText.removedResubscribe
          if dm2.1 then
            ⟨false, dm1.2 ++ rm.2 ++ dm2.2 ++
              [Call.signal (SignalText.removedSubscription t (obj.status.getD ""))]⟩
          else
            ⟨false, dm1.2 ++ rm.2 ++ dm2.2 ++ [Call.signal (SignalText.removeError t)]⟩
        else ⟨false, dm1.2 ++ rm.2⟩
      else ⟨true, dm1.2⟩
    else ⟨false, []⟩

/-- The `customer.subscription.deleted` branch (app.py lines 527-544):
same shape as the updated branch without the status guard; the initial
DM at line 534 is outside any try/except. -/
def dispatchSubDeleted (env : Env) (obj : EventObject) : DispatchOut :=
  match truthyVal obj.metadataTg with
  | none => ⟨false, []⟩
  | some t =>
    let dm1 := send_dm env.tg 0 t MsgText.subscriptionDeleted
    if dm1.1 then
      let rm := remove_from_telegram_group env.tg t
      if rm.1 then
        let dm2 := send_dm env.tg 1 t MsgText.removedResubscribe
        if dm2.1 then
          ⟨false, dm1.2 ++ rm.2 ++ dm2.2 ++ [Call.signal (SignalText.removedDeleted t)]⟩
        else
          ⟨false, dm1.2 ++ rm.2 ++ dm2.2 ++ [Call.signal (SignalText.removeError t)]⟩
      else ⟨false, dm1.2 ++ rm.2⟩
    else ⟨true, dm1.2⟩

/-- The classification if/elif chain of `stripe_webhook` (app.py lines
430-544).  An event type matching none of the handled kinds performs no
work at all. -/
def dispatchEvent (env : Env) (e : Event) : DispatchOut :=
  if e.type = "checkout.session.completed" ∨ e.type = "checkout.session.async_payment_succeeded" then
    dispatchCheckout env e.obj
  else if e.type = "invoice.paid" then dispatchInvoicePaid env e.obj
  else if e.type = "invoice.payment_failed" then dispatchPaymentFailed env e.obj
  else if e.type = "customer.subscription.updated" then dispatchSubUpdated env e.obj
  else if e.type = "customer.subscription.deleted" then dispatchSubDeleted env e.obj
  else ⟨false, []⟩

/-- HTTP response of the webhook endpoint for a POST request: `ok200`
models the empty-body success `('', 200)`; `badRequest400` models
`abort(400)` on signature verification failure; `serverError500` models
Flask's response to an exception escaping the handler. -/
inductive WebhookResponse
  | ok200
  | badRequest400
  | serverError500
deriving DecidableEq, Repr

/-- Full observable outcome of one POST to the webhook endpoint. -/
structure WebhookOut where
  response : WebhookResponse
  processed : List String
  calls : List Call
deriving DecidableEq, Repr

/-- Model of the POST path of `stripe_webhook` (app.py lines 411-546).
`constructResult` is the outcome of
`stripe.Webhook.construct_event(payload, sig_header, WEBHOOK_SECRET)`:
`none` when signature verification raises (missing, malformed or wrong
signature), `some e` when it yields the verified event `e`.  On a
verification failure the handler aborts with 400 before touching the
ledger.  Otherwise the id is looked up and recorded by
`already_processed` BEFORE any dispatch work; a duplicate short-circuits
to 200 with no calls.  A fresh event is mirrored to the admin sink and
dispatched; if the dispatch lets an exception escape, the recorded id
stays recorded and the response is a 500. -/
def stripe_webhook (env : Env) (processed : List String) (constructResult : Option Event) :
    WebhookOut :=
  match constructResult with
  | none => ⟨WebhookResponse.badRequest400, processed, []⟩
  | some e =>
    let ap := already_processed processed e.id
    if ap.1 then ⟨WebhookResponse.ok200, ap.2, []⟩
    else
      let d := dispatchEvent env e
      ⟨if d.raised then WebhookResponse.serverError500 else WebhookResponse.ok200,
       ap.2,
       Call.signal (SignalText.eventReceived e.type) :: d.calls⟩

/-! Admin notification sink, from `notify_signals.py`. -/

/-- Outcome of one `requests.post` attempt inside `send_signal`: a
response with a status code, a `requests.exceptions.Timeout`, or another
`requests.exceptions.RequestException`. -/
inductive AttemptOutcome
  | resp (status : Nat)
  | timeoutExc
  | reqExc
deriving DecidableEq, Repr

/-- Observable result of a `send_signal` call: the returned boolean, the
number of post attempts made, and the number of `time.sleep` calls. -/
structure SendSignalOut where
  result : Bool
  attempts : Nat
  sleeps : Nat
deriving DecidableEq, Repr

/-- How the body of one loop iteration of `send_signal` ends: `some true`
is the early `return True` on `resp.ok` (status below 400); `some false`
is the early `return False` on a client-error status other than 429; and
`none` means the iteration falls through to the retry logic (any other
status, a timeout, or a request exception). -/
def attemptTerminal : AttemptOutcome → Option Bool
  | AttemptOutcome.resp s =>
    if s < 400 then some true
    else if 400 ≤ s ∧ s < 500 ∧ s ≠ 429 then some false
    else none
  | AttemptOutcome.timeoutExc => none
  | AttemptOutcome.reqExc => none

/-- One iteration step of the retry loop in `send_signal`
(notify_signals.py lines 74-95), recursing on the number of loop
iterations still available.  `outcome i` is the result of the post made
on attempt index `i`.  A terminal body returns immediately; a
fall-through sleeps first unless this was the final iteration. -/
def sendSignalGo (outcome : Nat → AttemptOutcome) (i : Nat) : Nat → SendSignalOut
  | 0 => ⟨false, 0, 0⟩
  | remaining + 1 =>
    match attemptTerminal (outcome i) with
    | some b => ⟨b, 1, 0⟩
    | none =>
      if remaining = 0 then ⟨false, 1, 0⟩
      else
        let r := sendSignalGo outcome (i + 1) remaining
        ⟨r.result, r.attempts + 1, r.sleeps + 1⟩

/-- Model of `send_signal` from `notify_signals.py` with the default
`max_retries = 3` used by every caller: an empty message returns `false`
with no attempt; otherwise the retry loop runs.  The function is total
and returns a record, modelling that the Python function catches every
request exception and never raises to its caller (message truncation only
affects the payload text, not control flow, and is not modelled). -/
def send_signal (outcome : Nat → AttemptOutcome) (message : String) : SendSignalOut :=
  if message = "" then ⟨false, 0, 0⟩ else sendSignalGo outcome 0 3

/-- An attempt outcome after which the `send_signal` loop is willing to
try again: a request exception, a timeout, a 429 response, or a
server-error (or other non-client) status at or above 500. -/
def retryableOutcome : AttemptOutcome → Bool
  | AttemptOutcome.resp s => s = 429 || 500 ≤ s
  | AttemptOutcome.timeoutExc => true
  | AttemptOutcome.reqExc => true

/-! Bot-token normalization, from `get_bot_token` (app.py lines 76-91 and
notify_signals.py lines 24-45 — the two copies implement the same
algorithm).  Strings are embedded as their character lists. -/

/-- Character-wise lowercasing, modelling Python `str.lower()` on the
ASCII tokens involved. -/
def lowerChars (l : List Char) : List Char := l.map Char.toLower

/-- The remainder of the input after the first occurrence of the
scheme separator "://", or none when it does not occur. -/
def afterSchemeSep : List Char → Option (List Char)
  | [] => none
  | c :: rest =>
    if c = ':' ∧ List.isPrefixOf ['/', '/'] rest then some (rest.drop 2)
    else afterSchemeSep rest

/-- The suffix of the input starting at its first '/' (empty when there
is none). -/
def fromFirstSlash : List Char → List Char
  | [] => []
  | c :: rest => if c = '/' then c :: rest else fromFirstSlash rest

/-- Truncation at the first query or fragment delimiter. -/
def stripQueryFrag (l : List Char) : List Char :=
  l.takeWhile (fun c => c != '?' && c != '#')

/-- Model of Python `urlparse(s).path` restricted to the inputs
`get_bot_token` meets: for an absolute URL containing "://" the path is
the component from the first '/' after the authority, with query and
fragment stripped; inputs without "://" are returned with query and
fragment stripped (approximating a scheme-less parse, never reached for
well-formed credentials). -/
def urlparsePath (s : List Char) : List Char :=
  match afterSchemeSep s with
  | some rest => stripQueryFrag (fromFirstSlash rest)
  | none => stripQueryFrag s

/-- Model of `get_bot_token`: when the raw credential starts with "http"
it is parsed as a URL and, if the URL path lowercased starts with "/bot",
the token becomes the path with those four characters dropped; then a
leading case-insensitive "bot" marker, if present, is stripped. -/
def get_bot_token (rawToken : List Char) : List Char :=
  let token := rawToken
  let token :=
    if List.isPrefixOf ['h', 't', 't', 'p'] token then
      let path := urlparsePath token
      if List.isPrefixOf ['/', 'b', 'o', 't'] (lowerChars path) then path.drop 4 else token
    else token
  if List.isPrefixOf ['b', 'o', 't'] (lowerChars token) then token.drop 3 else token

/-! Interleaving model of `already_processed` under two concurrent
requests, for the deduplication-atomicity claim.  The Python function
performs two separately atomic operations on the global set: the
membership test `event_id in processed_events` and the insertion
`processed_events.add(event_id)`, with no lock around the pair.  Each
thread is a program counter over those two steps. -/

/-- Program counter of one thread running `already_processed`:
before the membership test, between the test (which found the id absent)
and the insertion, or finished with the function's return value. -/
inductive LedgerPC
  | atCheck
  | atInsert
  | finished (result : Bool)
deriving DecidableEq, Repr

/-- Shared state of two concurrent `already_processed` calls. -/
structure LedgerConc where
  processed : List String
  pc1 : LedgerPC
  pc2 : LedgerPC
deriving DecidableEq, Repr

/-- One atomic step of a thread running `already_processed id`: the
membership test either finishes with `true` (duplicate) or moves to the
insertion point; the insertion adds the id and finishes with `false`
(judged unprocessed).  A finished thread stays finished. -/
def stepLedgerThread (processed : List String) (id : String) :
    LedgerPC → List String × LedgerPC
  | LedgerPC.atCheck =>
    if processed.contains id then (processed, LedgerPC.finished true)
    else (processed, LedgerPC.atInsert)
  | LedgerPC.atInsert => (id :: processed, LedgerPC.finished false)
  | LedgerPC.finished r => (processed, LedgerPC.finished r)

/-- Run two concurrent `already_processed` calls (thread 1 with `id1`,
thread 2 with `id2`) from an empty ledger under a schedule: `true` picks
a step of thread 1, `false` a step of thread 2. -/
def runLedgerSched (id1 id2 : String) (sched : List Bool) : LedgerConc :=
  sched.foldl
    (fun st pick =>
      if pick then
        let r := stepLedgerThread st.processed id1 st.pc1
        ⟨r.1, r.2, st.pc2⟩
      else
        let r := stepLedgerThread st.processed id2 st.pc2
        ⟨r.1, st.pc1, r.2⟩)
    ⟨[], LedgerPC.atCheck, LedgerPC.atCheck⟩

/-! Concrete environments and events used by witnesses and
counterexamples. -/

/-- Telegram environment in which every call succeeds. -/
def tgEnvAllOk : TgEnv :=
  ⟨TgOutcome.ok, "https://t.me/+invite1", fun _ => TgOutcome.ok, TgOutcome.ok, false⟩

/-- Stripe environment with no usable auxiliary data: retrievals succeed
but carry no telegram id, invoice lists are empty, modifications do not
raise. -/
def stripeEnvEmpty : StripeEnv :=
  ⟨fun _ => some none, fun _ => some none, fun _ => some [], fun _ => false⟩

/-- Fully successful environment. -/
def envAllOk : Env := ⟨tgEnvAllOk, stripeEnvEmpty⟩

/-- Environment in which every direct message fails with a non-200
status while all other calls succeed. -/
def envDmFail : Env :=
  ⟨⟨TgOutcome.ok, "https://t.me/+invite1", fun _ => TgOutcome.httpErr, TgOutcome.ok, false⟩,
   stripeEnvEmpty⟩

/-- A verified `invoice.payment_failed` event carrying a telegram id in
its own metadata. -/
def evPaymentFailed : Event :=
  ⟨"evt_pf_1", "invoice.payment_failed", ⟨some "7", none, none, none, none⟩⟩

/-- Whether the first direct message of a request fails (raises). -/
def dmFails (env : Env) : Bool := !tgCallOk (env.tg.dmOutcome 0)

/-- The exact condition under which `stripe_webhook` lets an exception
escape: the event is one of the three kinds whose initial direct message
sits outside every try/except (payment failed; subscription updated with
an access-ending status; subscription deleted), a truthy telegram id is
present, and that DM call fails. -/
def raisesInitialDm (env : Env) (e : Event) : Bool :=
  if e.type = "invoice.payment_failed" then
    (truthyVal e.obj.metadataTg).isSome && dmFails env
  else if e.type = "customer.subscription.updated" then
    (truthyVal e.obj.metadataTg).isSome && statusEndsAccess e.obj.status && dmFails env
  else if e.type = "customer.subscription.deleted" then
    (truthyVal e.obj.metadataTg).isSome && dmFails env
  else false

/-- The six event type strings matched by the if/elif chain of
`stripe_webhook`. -/
def handledTypes : List String :=
  ["checkout.session.completed", "checkout.session.async_payment_succeeded",
   "invoice.paid", "invoice.payment_failed",
   "customer.subscription.updated", "customer.subscription.deleted"]

/-- A verified checkout event with a telegram id and a subscription
reference. -/
def evCheckout : Event :=
  ⟨"evt_co_1", "checkout.session.completed", ⟨some "42", none, none, some "sub_1", none⟩⟩

/-- Stripe environment whose invoice list returns one invoice. -/
def stripeEnvInvoice : StripeEnv :=
  ⟨fun _ => some none, fun _ => some none, fun _ => some ["in_1"], fun _ => false⟩

/-- Environment for the checkout witness. -/
def envCheckout : Env := ⟨tgEnvAllOk, stripeEnvInvoice⟩

/-- Stripe environment whose customer retrieval yields a telegram id. -/
def stripeEnvCustomer : StripeEnv :=
  ⟨fun _ => some (some "99"), fun _ => some none, fun _ => some [], fun _ => false⟩

/-- Environment for the identity-resolution witness. -/
def envCustomer : Env := ⟨tgEnvAllOk, stripeEnvCustomer⟩

/-- An invoice object with no metadata id but customer and subscription
references. -/
def invoiceObjNoTg : EventObject := ⟨none, some "cus_1", some "sub_9", none, none⟩

/-- Telegram environment whose ban call answers with a non-200 status. -/
def tgEnvBanHttpErr : TgEnv :=
  ⟨TgOutcome.ok, "https://t.me/+invite1", fun _ => TgOutcome.ok, TgOutcome.httpErr, false⟩

/-- A verified event of a kind the dispatcher does not handle. -/
def evUnmatched : Event :=
  ⟨"evt_um_1", "payment_intent.succeeded", ⟨some "42", none, none, none, none⟩⟩

/-! Helper lemmas about which dispatch branches can let an exception
escape. -/

/-- The checkout branch absorbs every failure. -/
lemma dispatchCheckout_not_raised (env : Env) (obj : EventObject) :
    (dispatchCheckout env obj).raised = false := by
  unfold dispatchCheckout create_one_time_invite send_dm
  dsimp only
  repeat' split
  all_goals rfl

/-- The invoice-paid branch absorbs every failure. -/
lemma dispatchInvoicePaid_not_raised (env : Env) (obj : EventObject) :
    (dispatchInvoicePaid env obj).raised = false := by
  unfold dispatchInvoicePaid create_one_time_invite send_dm
  dsimp only
  repeat' split
  all_goals rfl

/-- The payment-failed branch raises exactly when a truthy id is present
and the initial DM fails. -/
lemma dispatchPaymentFailed_raised (env : Env) (obj : EventObject) :
    (dispatchPaymentFailed env obj).raised
      = ((truthyVal obj.metadataTg).isSome && dmFails env) := by
  unfold dispatchPaymentFailed send_dm dmFails
  dsimp only
  repeat' split
  all_goals simp_all

/-- The subscription-updated branch raises exactly when a truthy id is
present, the status ends access, and the initial DM fails. -/
lemma dispatchSubUpdated_raised (env : Env) (obj : EventObject) :
    (dispatchSubUpdated env obj).raised
      = ((truthyVal obj.metadataTg).isSome && statusEndsAccess obj.status && dmFails env) := by
  unfold dispatchSubUpdated send_dm dmFails
  dsimp only
  repeat' split
  all_goals simp_all

/-- The subscription-deleted branch raises exactly when a truthy id is
present and the initial DM fails. -/
lemma dispatchSubDeleted_raised (env : Env) (obj : EventObject) :
    (dispatchSubDeleted env obj).raised
      = ((truthyVal obj.metadataTg).isSome && dmFails env) := by
  unfold dispatchSubDeleted send_dm dmFails
  dsimp only
  repeat' split
  all_goals simp_all

/-- The dispatcher lets an exception escape exactly under
`raisesInitialDm`. -/
lemma dispatchEvent_raised (env : Env) (e : Event) :
    (dispatchEvent env e).raised = raisesInitialDm env e := by
  unfold dispatchEvent raisesInitialDm
  by_cases h1 : e.type = "checkout.session.completed" ∨
      e.type = "checkout.session.async_payment_succeeded"
  · rcases h1 with h | h <;>
      simp [h, dispatchCheckout_not_raised]
  · rw [if_neg h1]
    by_cases h2 : e.type = "invoice.paid"
    · simp [h2, dispatchInvoicePaid_not_raised]
    · rw [if_neg h2]
      by_cases h3 : e.type = "invoice.payment_failed"
      · simp [h3, dispatchPaymentFailed_raised]
      · rw [if_neg h3, if_neg h3]
        by_cases h4 : e.type = "customer.subscription.updated"
        · simp [h4, dispatchSubUpdated_raised]
        · rw [if_neg h4, if_neg h4]
          by_cases h5 : e.type = "customer.subscription.deleted"
          · simp [h5, dispatchSubDeleted_raised]
          · rw [if_neg h5, if_neg h5]

/-- C1 (counterexample).  The claim says every event passing signature
verification yields HTTP 200 regardless of downstream action failures.
It is false: for a verified `invoice.payment_failed` event with a truthy
telegram id, a failing direct message (non-200 from the Telegram API)
raises outside every try/except and the handler answers 500, not 200. -/
theorem webhook_not_always_200_cex :
    (stripe_webhook envDmFail [] (some evPaymentFailed)).response
        = WebhookResponse.serverError500 ∧
    (stripe_webhook envDmFail [] (some evPaymentFailed)).response
        ≠ WebhookResponse.ok200 := by
  constructor <;> decide

/-- C1 (amended).  For every verified event the handler returns 200 if
and only if the event is a duplicate or its dispatch does not hit the one
unprotected failure point: the initial direct message of the
payment-failed, access-ending subscription-updated, and
subscription-deleted branches, which sits outside every try/except.  All
other downstream failures (invite creation, renewal message, auxiliary
lookups, invoice patching, revocation, post-removal messages) are
absorbed and still yield 200. -/
theorem webhook_response_ok_iff (env : Env) (processed : List String) (e : Event) :
    (stripe_webhook env processed (some e)).response = WebhookResponse.ok200 ↔
      (processed.contains e.id = true ∨ raisesInitialDm env e = false) := by
  unfold stripe_webhook already_processed
  dsimp only
  by_cases h : e.id ∈ processed
  · have hc : processed.contains e.id = true := by simpa using h
    simp [h, hc]
  · have hc : processed.contains e.id = false := by simpa using h
    simp only [h, if_false, hc, Bool.false_eq_true, false_or]
    rw [dispatchEvent_raised]
    cases hr : raisesInitialDm env e <;> simp

/-- Witness for the amended C1 theorem at a concrete input: with every
call succeeding, a fresh payment-failed event yields 200. -/
theorem webhook_response_ok_iff_witness :
    (stripe_webhook envAllOk [] (some evPaymentFailed)).response
      = WebhookResponse.ok200 :=
  (webhook_response_ok_iff envAllOk [] evPaymentFailed).mpr (Or.inr (by decide))

/-- C2.  A request whose signature is missing, malformed or wrong (the
construct_event call raises) is answered with 400, dispatches nothing,
and leaves the deduplication ledger untouched; a later correctly signed
delivery of the same identifier is therefore still dispatched (its id
gets recorded and its trace starts with the admin mirror of the event
kind, followed by the dispatch of its branch). -/
theorem signature_failure_gate (env : Env) (processed : List String) (e : Event) :
    stripe_webhook env processed none
        = ⟨WebhookResponse.badRequest400, processed, []⟩ ∧
    (processed.contains e.id = false →
      (stripe_webhook env processed (some e)).processed = e.id :: processed ∧
      (stripe_webhook env processed (some e)).calls
        = Call.signal (SignalText.eventReceived e.type) :: (dispatchEvent env e).calls) := by
  refine ⟨rfl, fun h => ?_⟩
  have hm : e.id ∉ processed := by simpa using h
  unfold stripe_webhook already_processed
  simp [hm]

/-- Witness for C2 at a concrete input. -/
theorem signature_failure_gate_witness :
    stripe_webhook envAllOk [] none = ⟨WebhookResponse.badRequest400, [], []⟩ ∧
    (stripe_webhook envAllOk [] (some evPaymentFailed)).processed = ["evt_pf_1"] :=
  ⟨(signature_failure_gate envAllOk [] evPaymentFailed).1,
   ((signature_failure_gate envAllOk [] evPaymentFailed).2 (by decide)).1⟩

/-- C3 (counterexample).  The claim says delivering the same verified
event identifier twice produces two 200 responses.  It is false: when the
first delivery's dispatch raises (payment-failed event whose initial DM
fails), the first response is a 500.  The identifier is nevertheless
recorded, so the second delivery is skipped with 200 and no calls. -/
theorem idempotent_two_200_cex :
    (stripe_webhook envDmFail [] (some evPaymentFailed)).response
        ≠ WebhookResponse.ok200 ∧
    (stripe_webhook envDmFail
        (stripe_webhook envDmFail [] (some evPaymentFailed)).processed
        (some evPaymentFailed)).response = WebhookResponse.ok200 ∧
    (stripe_webhook envDmFail
        (stripe_webhook envDmFail [] (some evPaymentFailed)).processed
        (some evPaymentFailed)).calls = [] := by
  refine ⟨?_, ?_, ?_⟩ <;> decide

/-- C3 (amended).  For every fresh verified event the identifier is
recorded by the check-then-insert before dispatch, so it stays recorded
even when a dispatch action fails; a second delivery of the same
identifier is skipped with 200 and zero calls; and both responses are
200 whenever the first dispatch does not hit the unprotected initial-DM
failure point. -/
theorem webhook_idempotent_amended (env : Env) (processed : List String) (e : Event)
    (h : processed.contains e.id = false) :
    (stripe_webhook env processed (some e)).processed = e.id :: processed ∧
    stripe_webhook env (stripe_webhook env processed (some e)).processed (some e)
      = ⟨WebhookResponse.ok200, e.id :: processed, []⟩ ∧
    (raisesInitialDm env e = false →
      (stripe_webhook env processed (some e)).response = WebhookResponse.ok200) := by
  have hm : e.id ∉ processed := by simpa using h
  have hproc : (stripe_webhook env processed (some e)).processed = e.id :: processed := by
    unfold stripe_webhook already_processed
    simp [hm]
  refine ⟨hproc, ?_, fun hr => ?_⟩
  · rw [hproc]
    unfold stripe_webhook already_processed
    simp
  · unfold stripe_webhook already_processed
    simp [hm, dispatchEvent_raised, hr]

/-- Witness for the amended C3 theorem at a concrete input: even with
the invite call failing, the first delivery records the id, the second
is skipped with 200 and no calls. -/
theorem webhook_idempotent_amended_witness :
    (stripe_webhook envDmFail [] (some evPaymentFailed)).processed = ["evt_pf_1"] ∧
    stripe_webhook envDmFail
        (stripe_webhook envDmFail [] (some evPaymentFailed)).processed
        (some evPaymentFailed)
      = ⟨WebhookResponse.ok200, ["evt_pf_1"], []⟩ :=
  ⟨(webhook_idempotent_amended envDmFail [] evPaymentFailed (by decide)).1,
   (webhook_idempotent_amended envDmFail [] evPaymentFailed (by decide)).2.1⟩

/-- C4.  Identity resolution for invoice-paid events: the invoice's own
metadata is tried first and a truthy value wins with no auxiliary call;
the customer is retrieved only when the invoice-level value is absent
(falsy) and a customer is referenced, and a truthy customer-metadata
value wins without consulting the subscription; the subscription is
retrieved only when the value is still absent and the invoice's parent
references a subscription; a failed customer retrieval does not abort
resolution but falls through to the subscription source, and a failed
subscription retrieval falls through to absent. -/
theorem invoice_identity_resolution_order (env : Env) (obj : EventObject) :
    (truthyVal obj.metadataTg ≠ none →
       resolveInvoiceTg env obj = (obj.metadataTg, [])) ∧
    (∀ c m, truthyVal obj.metadataTg = none → truthyVal obj.customer = some c →
       env.stripe.customerTg c = some m → truthyVal m ≠ none →
       resolveInvoiceTg env obj = (m, [Call.customerRetrieve c])) ∧
    (∀ c m sid m2, truthyVal obj.metadataTg = none → truthyVal obj.customer = some c →
       env.stripe.customerTg c = some m → truthyVal m = none →
       truthyVal obj.parentSubscription = some sid →
       env.stripe.subscriptionTg sid = some m2 →
       resolveInvoiceTg env obj
         = (m2, [Call.customerRetrieve c, Call.subscriptionRetrieve sid])) ∧
    (∀ c sid m2, truthyVal obj.metadataTg = none → truthyVal obj.customer = some c →
       env.stripe.customerTg c = none →
       truthyVal obj.parentSubscription = some sid →
       env.stripe.subscriptionTg sid = some m2 →
       resolveInvoiceTg env obj
         = (m2, [Call.customerRetrieve c, Call.subscriptionRetrieve sid])) ∧
    (∀ sid, truthyVal obj.metadataTg = none → truthyVal obj.customer = none →
       truthyVal obj.parentSubscription = some sid →
       env.stripe.subscriptionTg sid = none →
       resolveInvoiceTg env obj = (obj.metadataTg, [Call.subscriptionRetrieve sid])) := by
  unfold resolveInvoiceTg
  refine ⟨?_, ?_, ?_, ?_, ?_⟩
  · intro h
    cases htg : truthyVal obj.metadataTg with
    | none => exact absurd htg h
    | some t => simp [htg]
  · intro c m h1 h2 h3 h4
    cases hm : truthyVal m with
    | none => exact absurd hm h4
    | some t => simp [h1, h2, h3, hm]
  · intro c m sid m2 h1 h2 h3 h4 h5 h6
    simp [h1, h2, h3, h4, h5, h6]
  · intro c sid m2 h1 h2 h3 h4 h5
    simp [h1, h2, h3, h4, h5]
  · intro sid h1 h2 h3 h4
    simp [h1, h2, h3, h4]

/-- Witness for C4 at concrete inputs: an invoice with no metadata id and
a customer whose metadata yields the id resolves to the customer value
with exactly one retrieval call. -/
theorem invoice_identity_resolution_order_witness :
    resolveInvoiceTg envCustomer invoiceObjNoTg
      = (some "99", [Call.customerRetrieve "cus_1"]) :=
  (invoice_identity_resolution_order envCustomer invoiceObjNoTg).2.1
    "cus_1" (some "99") (by decide) (by decide) rfl (by decide)

/-- C5.  The revocation helper is a total boolean-returning function
(never raises to its caller): when the ban call fails with a non-200
status, an embedded application error, or a network exception it returns
false; on ban success it immediately posts the unban (reversing the block
state so the user can rejoin) and returns true unless the unban post
itself raises; and whenever it reports success the trace is exactly the
ban followed by the unban. -/
theorem remove_membership_contract (env : TgEnv) (uid : String) :
    (env.banOutcome = TgOutcome.httpErr ∨ env.banOutcome = TgOutcome.apiErr ∨
        env.banOutcome = TgOutcome.netExc →
       remove_from_telegram_group env uid = (false, [Call.ban uid])) ∧
    (env.banOutcome = TgOutcome.ok →
       (remove_from_telegram_group env uid).2 = [Call.ban uid, Call.unban uid] ∧
       (env.unbanRaises = false → (remove_from_telegram_group env uid).1 = true)) ∧
    ((remove_from_telegram_group env uid).1 = true →
       env.banOutcome = TgOutcome.ok ∧
       (remove_from_telegram_group env uid).2 = [Call.ban uid, Call.unban uid]) := by
  unfold remove_from_telegram_group
  cases hban : env.banOutcome <;> cases hub : env.unbanRaises <;>
    simp [tgCallOk]

/-- Witness for C5 at concrete inputs: an HTTP-failing ban yields false
with only the ban attempted; a fully successful environment yields true
with ban then unban. -/
theorem remove_membership_contract_witness :
    remove_from_telegram_group tgEnvBanHttpErr "7" = (false, [Call.ban "7"]) ∧
    (remove_from_telegram_group tgEnvAllOk "7").1 = true :=
  ⟨(remove_membership_contract tgEnvBanHttpErr "7").1 (Or.inl rfl),
   ((remove_membership_contract tgEnvAllOk "7").2.1 rfl).2 rfl⟩

/-- C8.  A fresh verified event whose type matches none of the six
handled kinds is accepted with 200, its trace holds only the admin-sink
mirror of the event type, and in particular it contains zero Messaging
Gateway calls (no invite, no direct message, no revocation). -/
theorem unmatched_kind_noop (env : Env) (processed : List String) (e : Event)
    (hdup : processed.contains e.id = false) (hkind : e.type ∉ handledTypes) :
    stripe_webhook env processed (some e)
      = ⟨WebhookResponse.ok200, e.id :: processed,
         [Call.signal (SignalText.eventReceived e.type)]⟩ ∧
    ((stripe_webhook env processed (some e)).calls.all fun c => !isGatewayCall c) = true := by
  have hm : e.id ∉ processed := by simpa using hdup
  simp only [handledTypes, List.mem_cons, List.not_mem_nil, or_false, not_or] at hkind
  obtain ⟨h1, h2, h3, h4, h5, h6⟩ := hkind
  have hd : dispatchEvent env e = ⟨false, []⟩ := by
    unfold dispatchEvent
    rw [if_neg (by tauto), if_neg h3, if_neg h4, if_neg h5, if_neg h6]
  constructor
  · unfold stripe_webhook already_processed
    simp [hm, hd]
  · unfold stripe_webhook already_processed
    simp [hm, hd, isGatewayCall]

/-- Witness for C8 at a concrete input. -/
theorem unmatched_kind_noop_witness :
    stripe_webhook envAllOk [] (some evUnmatched)
      = ⟨WebhookResponse.ok200, ["evt_um_1"],
         [Call.signal (SignalText.eventReceived "payment_intent.succeeded")]⟩ :=
  (unmatched_kind_noop envAllOk [] evUnmatched (by decide) (by decide)).1

/-- C10.  For a fresh verified checkout-completed event (sync or async)
with a truthy telegram id, after the invite is created and the user is
messaged, if the checkout session references a subscription then the
handler additionally lists that subscription's latest invoice from the
payment provider and writes the telegram id into that invoice's
metadata — a side effect beyond the action table (create invite, message
user). -/
theorem checkout_patches_invoice_metadata (env : Env) (processed : List String)
    (e : Event) (t sid invId : String) (rest : List String)
    (hkind : e.type = "checkout.session.completed" ∨
        e.type = "checkout.session.async_payment_succeeded")
    (hdup : processed.contains e.id = false)
    (htg : truthyVal e.obj.metadataTg = some t)
    (hinv : env.tg.inviteOutcome = TgOutcome.ok)
    (hdm : env.tg.dmOutcome 0 = TgOutcome.ok)
    (hsub : truthyVal e.obj.subscription = some sid)
    (hlist : env.stripe.invoiceList sid = some (invId :: rest))
    (hmod : env.stripe.invoiceModifyRaises invId = false) :
    stripe_webhook env processed (some e)
      = ⟨WebhookResponse.ok200, e.id :: processed,
         [Call.signal (SignalText.eventReceived e.type), Call.createInvite,
          Call.dm t (MsgText.inviteLink env.tg.inviteLink),
          Call.invoiceListReq sid, Call.invoiceModify invId t]⟩ := by
  have hm : e.id ∉ processed := by simpa using hdup
  have hd : dispatchCheckout env e.obj
      = ⟨false, [Call.createInvite, Call.dm t (MsgText.inviteLink env.tg.inviteLink),
                 Call.invoiceListReq sid, Call.invoiceModify invId t]⟩ := by
    unfold dispatchCheckout create_one_time_invite send_dm
    simp [htg, hinv, hdm, hsub, hlist, hmod, tgCallOk]
  have hde : dispatchEvent env e = dispatchCheckout env e.obj := by
    unfold dispatchEvent
    rw [if_pos hkind]
  unfold stripe_webhook already_processed
  simp [hm, hde, hd]

/-- Witness for C10 at concrete inputs. -/
theorem checkout_patches_invoice_metadata_witness :
    stripe_webhook envCheckout [] (some evCheckout)
      = ⟨WebhookResponse.ok200, ["evt_co_1"],
         [Call.signal (SignalText.eventReceived "checkout.session.completed"),
          Call.createInvite,
          Call.dm "42" (MsgText.inviteLink "https://t.me/+invite1"),
          Call.invoiceListReq "sub_1", Call.invoiceModify "in_1" "42"]⟩ :=
  checkout_patches_invoice_metadata envCheckout [] evCheckout "42" "sub_1" "in_1" []
    (Or.inl rfl) (by decide) (by decide) rfl rfl (by decide) rfl rfl

/-! Helper lemmas for the token-normalization claim. -/

/-- The scheme separator of an https URL is found right after the scheme,
whatever follows. -/
lemma afterSchemeSep_https (l : List Char) :
    afterSchemeSep ('h' :: 't' :: 't' :: 'p' :: 's' :: ':' :: '/' :: '/' :: l) = some l := by
  rw [afterSchemeSep, if_neg (fun h => absurd h.1 (by decide))]
  rw [afterSchemeSep, if_neg (fun h => absurd h.1 (by decide))]
  rw [afterSchemeSep, if_neg (fun h => absurd h.1 (by decide))]
  rw [afterSchemeSep, if_neg (fun h => absurd h.1 (by decide))]
  rw [afterSchemeSep, if_neg (fun h => absurd h.1 (by decide))]
  rw [afterSchemeSep, if_pos ⟨rfl, by simp [List.isPrefixOf]⟩]
  rfl

/-- Skipping a slash-free authority reaches the first slash of the
path. -/
lemma fromFirstSlash_append (host l : List Char) (h : '/' ∉ host) :
    fromFirstSlash (host ++ '/' :: l) = '/' :: l := by
  induction host with
  | nil => rfl
  | cons c cs ih =>
    have hc : ¬(c = '/') := by
      rintro rfl
      exact h (List.mem_cons_self _ _)
    have hcs : '/' ∉ cs := fun hx => h (List.mem_cons_of_mem c hx)
    rw [List.cons_append, fromFirstSlash, if_neg hc]
    exact ih hcs

/-- A list free of query and fragment delimiters is kept whole. -/
lemma stripQueryFrag_id (l : List Char) :
    '?' ∉ l → '#' ∉ l → stripQueryFrag l = l := by
  induction l with
  | nil => intro _ _; rfl
  | cons c cs ih =>
    intro h1 h2
    have hc1 : ¬(c = '?') := by
      rintro rfl
      exact h1 (List.mem_cons_self _ _)
    have hc2 : ¬(c = '#') := by
      rintro rfl
      exact h2 (List.mem_cons_self _ _)
    have ih' := ih (fun hx => h1 (List.mem_cons_of_mem c hx))
      (fun hx => h2 (List.mem_cons_of_mem c hx))
    unfold stripQueryFrag at ih' ⊢
    rw [List.takeWhile_cons, if_pos (by simp [hc1, hc2]), ih']

/-- C6.  Token normalization accepts all three credential shapes.  A
well-formed bare token (one that does not itself start with "http" or a
case-insensitive "bot" marker, and contains no query or fragment
delimiter) is returned unchanged; the same token with the provider's
"bot" marker prefixed is stripped back to the bare token; and a full API
URL embedding the token after a "/bot" path prefix (with a slash-free
authority) is parsed back to the bare token. -/
theorem token_normalization (host tok : List Char)
    (hb1 : List.isPrefixOf ['h', 't', 't', 'p'] tok = false)
    (hb2 : List.isPrefixOf ['b', 'o', 't'] (lowerChars tok) = false)
    (hhost : '/' ∉ host)
    (ht1 : '?' ∉ tok) (ht2 : '#' ∉ tok) :
    get_bot_token tok = tok ∧
    get_bot_token ('b' :: 'o' :: 't' :: tok) = tok ∧
    get_bot_token (['h', 't', 't', 'p', 's', ':', '/', '/'] ++ host
        ++ '/' :: 'b' :: 'o' :: 't' :: tok) = tok := by
  refine ⟨?_, ?_, ?_⟩
  · unfold get_bot_token
    simp [hb1, hb2]
  · have hhttp : List.isPrefixOf ['h', 't', 't', 'p'] ('b' :: 'o' :: 't' :: tok) = false := rfl
    have hlower : lowerChars ('b' :: 'o' :: 't' :: tok)
        = 'b' :: 'o' :: 't' :: lowerChars tok := rfl
    have hbot : List.isPrefixOf ['b', 'o', 't'] ('b' :: 'o' :: 't' :: lowerChars tok)
        = true := by simp [List.isPrefixOf]
    unfold get_bot_token
    simp [hhttp, hlower, hbot]
  · have hsep : afterSchemeSep (['h', 't', 't', 'p', 's', ':', '/', '/'] ++ host
        ++ '/' :: 'b' :: 'o' :: 't' :: tok)
        = some (host ++ '/' :: 'b' :: 'o' :: 't' :: tok) :=
      afterSchemeSep_https (host ++ '/' :: 'b' :: 'o' :: 't' :: tok)
    have hq : '?' ∉ '/' :: 'b' :: 'o' :: 't' :: tok := by
      simp only [List.mem_cons, not_or]
      exact ⟨by decide, by decide, by decide, by decide, ht1⟩
    have hf : '#' ∉ '/' :: 'b' :: 'o' :: 't' :: tok := by
      simp only [List.mem_cons, not_or]
      exact ⟨by decide, by decide, by decide, by decide, ht2⟩
    have hpath : urlparsePath (['h', 't', 't', 'p', 's', ':', '/', '/'] ++ host
        ++ '/' :: 'b' :: 'o' :: 't' :: tok) = '/' :: 'b' :: 'o' :: 't' :: tok := by
      unfold urlparsePath
      rw [hsep]
      dsimp only
      rw [fromFirstSlash_append host _ hhost, stripQueryFrag_id _ hq hf]
    have hhttp : List.isPrefixOf ['h', 't', 't', 'p']
        (['h', 't', 't', 'p', 's', ':', '/', '/'] ++ host
          ++ '/' :: 'b' :: 'o' :: 't' :: tok) = true := by
      simp [List.isPrefixOf, List.cons_append]
    have hlowpath : lowerChars ('/' :: 'b' :: 'o' :: 't' :: tok)
        = '/' :: 'b' :: 'o' :: 't' :: lowerChars tok := rfl
    have hpbot : List.isPrefixOf ['/', 'b', 'o', 't']
        ('/' :: 'b' :: 'o' :: 't' :: lowerChars tok) = true := by
      simp [List.isPrefixOf]
    have hdrop : List.drop 4 ('/' :: 'b' :: 'o' :: 't' :: tok) = tok := rfl
    unfold get_bot_token
    dsimp only
    rw [if_pos hhttp]
    rw [hpath, hlowpath, if_pos hpbot, hdrop, if_neg (by simp [hb2])]

/-- Witness for C6 at a concrete credential. -/
theorem token_normalization_witness :
    get_bot_token ("123:AbC").toList = ("123:AbC").toList ∧
    get_bot_token ('b' :: 'o' :: 't' :: ("123:AbC").toList) = ("123:AbC").toList ∧
    get_bot_token (['h', 't', 't', 'p', 's', ':', '/', '/'] ++ ("api.telegram.org").toList
        ++ '/' :: 'b' :: 'o' :: 't' :: ("123:AbC").toList) = ("123:AbC").toList :=
  token_normalization ("api.telegram.org").toList ("123:AbC").toList
    (by decide) (by decide) (by decide) (by decide) (by decide)

/-! Helper lemmas for the admin-sink retry claim. -/

/-- An iteration falls through to the retry logic exactly on a retryable
outcome. -/
lemma attemptTerminal_none_iff (o : AttemptOutcome) :
    attemptTerminal o = none ↔ retryableOutcome o = true := by
  cases o with
  | resp s =>
    simp only [attemptTerminal, retryableOutcome]
    by_cases h1 : s < 400
    · simp only [if_pos h1]
      simp
      omega
    · by_cases h2 : 400 ≤ s ∧ s < 500 ∧ s ≠ 429
      · simp only [if_neg h1, if_pos h2]
        simp
        omega
      · simp only [if_neg h1, if_neg h2]
        simp
        omega
  | timeoutExc => simp [attemptTerminal, retryableOutcome]
  | reqExc => simp [attemptTerminal, retryableOutcome]

/-- Invariant of the retry loop: at most `remaining` attempts are made
(at least one when an iteration is available), sleeps happen between
attempts and never after the last, and every attempt that was followed by
another had a retryable outcome. -/
lemma sendSignalGo_contract (outcome : Nat → AttemptOutcome) :
    ∀ remaining i,
      (sendSignalGo outcome i remaining).attempts ≤ remaining ∧
      (remaining ≠ 0 → 1 ≤ (sendSignalGo outcome i remaining).attempts) ∧
      (sendSignalGo outcome i remaining).sleeps
        = (sendSignalGo outcome i remaining).attempts - 1 ∧
      (∀ k, k + 1 < (sendSignalGo outcome i remaining).attempts →
        retryableOutcome (outcome (i + k)) = true) := by
  intro remaining
  induction remaining with
  | zero => intro i; simp [sendSignalGo]
  | succ rem ih =>
    intro i
    rw [sendSignalGo]
    cases ht : attemptTerminal (outcome i) with
    | some b => simp
    | none =>
      by_cases hr : rem = 0
      · subst hr
        simp
      · have ihi := ih (i + 1)
        simp only [if_neg hr]
        refine ⟨by omega, fun _ => by omega, by
            have h1 := ihi.2.1 hr
            have h2 := ihi.2.2.1
            omega, ?_⟩
        intro k hk
        cases k with
        | zero =>
          simpa using (attemptTerminal_none_iff (outcome i)).mp ht
        | succ k' =>
          have hk' : k' + 1 < (sendSignalGo outcome (i + 1) rem).attempts := by omega
          have := ihi.2.2.2 k' hk'
          rw [show i + (k' + 1) = i + 1 + k' by omega]
          exact this

/-- C7.  The admin notification sink is a total boolean-returning
function (all delivery failures are swallowed, none propagates): it makes
at most three post attempts, sleeps exactly between consecutive attempts
and never after the last, and never retries after a client-error status
other than 429 — every attempt that was followed by another had a
retryable outcome (a 429, a status of 500 or above, a timeout, or a
request exception). -/
theorem send_signal_retry_contract (outcome : Nat → AttemptOutcome) (message : String) :
    (send_signal outcome message).attempts ≤ 3 ∧
    (send_signal outcome message).sleeps = (send_signal outcome message).attempts - 1 ∧
    (∀ k, k + 1 < (send_signal outcome message).attempts →
      retryableOutcome (outcome k) = true) := by
  unfold send_signal
  by_cases h : message = ""
  · simp [h]
  · have hc := sendSignalGo_contract outcome 3 0
    simp only [if_neg h]
    exact ⟨hc.1, hc.2.2.1, fun k hk => by simpa using hc.2.2.2 k hk⟩

/-- Witness for C7 at a concrete input: a permanent 500 answer exhausts
the three attempts with two sleeps and returns false. -/
theorem send_signal_retry_contract_witness :
    (send_signal (fun _ => AttemptOutcome.resp 500) "x").attempts ≤ 3 ∧
    (send_signal (fun _ => AttemptOutcome.resp 500) "x").sleeps
      = (send_signal (fun _ => AttemptOutcome.resp 500) "x").attempts - 1 :=
  ⟨(send_signal_retry_contract (fun _ => AttemptOutcome.resp 500) "x").1,
   (send_signal_retry_contract (fun _ => AttemptOutcome.resp 500) "x").2.1⟩

/-- C9.  The check-then-insert of `already_processed` is sequentially
idempotent (first conjuncts) but is NOT a single logical operation under
concurrency: the membership test and the insertion are two separate
atomic operations on the shared set with no lock around them, and under
the interleaving in which both threads run their membership test before
either inserts, two concurrent deliveries of the same event identifier
are BOTH judged unprocessed (both finish with result `false`), the id
ending up inserted twice. -/
theorem ledger_check_insert_race :
    runLedgerSched "evt_1" "evt_1" [true, false, true, false]
      = ⟨["evt_1", "evt_1"], LedgerPC.finished false, LedgerPC.finished false⟩ ∧
    (already_processed [] "evt_1").1 = false ∧
    (already_processed (already_processed [] "evt_1").2 "evt_1").1 = true := by
  refine ⟨?_, ?_, ?_⟩ <;> decide

end SurvivalSignals
